import Mathlib

set_option autoImplicit false

/-!
Shallow embedding of the auto-scroll hook and its host component.

Two variants of the hook exist in the repository:

* Variant A (src/unnamed/part_000, first file): the `useAutoScroll` hook that
  uses an IntersectionObserver as the source of truth for "at bottom" together
  with an `isScrollingProgrammaticallyRef` flag suppressing feedback from
  programmatic scrolls.
* Variant B (src/useAutoScroll.ts): the offset-arithmetic variant whose
  `handleScroll` recomputes "at bottom" from scrollTop/scrollHeight/clientHeight
  and clears `isUserScrolling` through a 150 ms timer.

The `ChatAutoScroll` component (second file inside src/unnamed/part_000)
contains `handleLoadOldMessages`, the position-preserving prepend flow.
-/

namespace AutoScroll

/-- Flag state of the variant A hook (src/unnamed/part_000): the four
useState booleans `isAtBottom`, `shouldAutoScroll`, `isUserScrolling`,
`isLoadingOldMessages` plus the `isScrollingProgrammaticallyRef` ref cell. -/
structure ScrollState where
  isAtBottom : Bool
  shouldAutoScroll : Bool
  isUserScrolling : Bool
  isLoadingOldMessages : Bool
  isScrollingProgrammatically : Bool
deriving Repr, DecidableEq, Fintype

/-- Initial state of the hook: `useState(true)` for isAtBottom and
shouldAutoScroll, `useState(false)` for isUserScrolling and
isLoadingOldMessages, `useRef(false)` for the programmatic flag. -/
def initState : ScrollState :=
  { isAtBottom := true
    shouldAutoScroll := true
    isUserScrolling := false
    isLoadingOldMessages := false
    isScrollingProgrammatically := false }

/-- Visibility of the jump-to-bottom affordance
(`showScrollButton = !isAtBottom && !isLoadingOldMessages && isUserScrolling`,
src/unnamed/part_000 line 151 and src/useAutoScroll.ts line 129). -/
def showScrollButton (s : ScrollState) : Bool :=
  !s.isAtBottom && !s.isLoadingOldMessages && s.isUserScrolling

/-- IntersectionObserver callback of variant A (src/unnamed/part_000 lines
50-63): record the reported intersection in `isAtBottom`; when the view
transitions from not-at-bottom to at-bottom and the programmatic flag is clear,
re-enable auto-scroll and clear user-scrolling. -/
def observerCallback (s : ScrollState) (isIntersecting : Bool) : ScrollState :=
  let wasAtBottom := s.isAtBottom
  let nowAtBottom := isIntersecting
  let s1 := { s with isAtBottom := nowAtBottom }
  if !wasAtBottom && nowAtBottom && !s.isScrollingProgrammatically then
    { s1 with shouldAutoScroll := true, isUserScrolling := false }
  else
    s1

/-- handleScroll of variant A (src/unnamed/part_000 lines 123-135): return
immediately when a programmatic scroll is in flight; otherwise, when not at
bottom and not streaming, mark the user as scrolling and disable auto-scroll. -/
def handleScroll (s : ScrollState) (isStreaming : Bool) : ScrollState :=
  if s.isScrollingProgrammatically then
    s
  else if !s.isAtBottom && !isStreaming then
    { s with isUserScrolling := true, shouldAutoScroll := false }
  else
    s

/-- Externally visible primitive effects performed by variant A
`scrollToBottom`, in program order. -/
inductive Effect where
  | setProgrammaticFlag : Bool → Effect
  | scrollAnchorIntoView : Bool → Effect
  | startClearFlagTimer : Nat → Effect
deriving Repr, DecidableEq

/-- scrollToBottom of variant A (src/unnamed/part_000 lines 87-104): when the
anchor ref is present, set the programmatic flag, scroll the anchor into view
with the requested smoothness, and start a timer that clears the flag after
500 ms when smooth and 0 ms otherwise; when the anchor ref is null, do
nothing. Returns the updated flag state together with the list of effects in
the order the code performs them. -/
def scrollToBottom (s : ScrollState) (anchorPresent : Bool) (smooth : Bool) :
    ScrollState × List Effect :=
  if anchorPresent then
    ({ s with isScrollingProgrammatically := true },
      [Effect.setProgrammaticFlag true,
       Effect.scrollAnchorIntoView smooth,
       Effect.startClearFlagTimer (if smooth then 500 else 0)])
  else
    (s, [])

/-- Body of the timer started by `scrollToBottom`
(src/unnamed/part_000 lines 100-102): clear the programmatic flag. -/
def clearProgrammaticFlag (s : ScrollState) : ScrollState :=
  { s with isScrollingProgrammatically := false }

/-- handleScrollToBottom of variant A (src/unnamed/part_000 lines 141-145):
set shouldAutoScroll, clear isUserScrolling, then call
`scrollToBottom(smooth = true)`. -/
def handleScrollToBottom (s : ScrollState) (anchorPresent : Bool) :
    ScrollState × List Effect :=
  scrollToBottom
    { s with shouldAutoScroll := true, isUserScrolling := false }
    anchorPresent true

/-- Auto-scroll effect on content change (src/unnamed/part_000 lines 110-117
and src/useAutoScroll.ts lines 70-76): when `shouldAutoScroll && isAtBottom`,
a call `scrollToBottom(!isStreaming)` is scheduled for the next animation
frame. `some smooth` means a scroll with that smoothness was scheduled,
`none` means nothing was scheduled. -/
def contentChangedSchedule (s : ScrollState) (isStreaming : Bool) : Option Bool :=
  if s.shouldAutoScroll && s.isAtBottom then some (!isStreaming) else none

/-- Events the variant A hook can receive. `scroll` and `contentChanged` carry
the isStreaming value at event time; `jumpToBottom` and `scrollToBottomCall`
carry whether the anchor ref is mounted. -/
inductive Event where
  | visibility : Bool → Event
  | scroll : Bool → Event
  | jumpToBottom : Bool → Event
  | setLoadingOldMessages : Bool → Event
  | scrollToBottomCall : Bool → Bool → Event
  | programmaticTimerFire : Event
deriving Repr, DecidableEq

/-- Flag-state transition of the variant A hook on one event, dispatching to
the handlers above (effects other than flag mutation are dropped). -/
def step (s : ScrollState) : Event → ScrollState
  | Event.visibility b => observerCallback s b
  | Event.scroll st => handleScroll s st
  | Event.jumpToBottom ap => (handleScrollToBottom s ap).1
  | Event.setLoadingOldMessages v => { s with isLoadingOldMessages := v }
  | Event.scrollToBottomCall ap sm => (scrollToBottom s ap sm).1
  | Event.programmaticTimerFire => clearProgrammaticFlag s

/-- State reached from the initial state after a sequence of events. -/
def run (events : List Event) : ScrollState :=
  events.foldl step initState

/-- Container geometry read by variant B and by the prepend flow:
`scrollTop`, `scrollHeight`, `clientHeight`. -/
structure Geometry where
  scrollTop : Int
  scrollHeight : Int
  clientHeight : Int
deriving Repr, DecidableEq

/-- Outcome of `handleLoadOldMessages` (ChatAutoScroll component,
src/unnamed/part_000 lines 224-247): the loading flag value after the call,
the scroll offset written by the animation-frame callback (`none` when the
container ref was null, so no compensation happened), and whether the 500 ms
settle timer that resets the loading flag was started. -/
structure LoadOldOutcome where
  isLoadingOldMessages : Bool
  writtenScrollTop : Option Int
  settleTimerStarted : Bool
deriving Repr, DecidableEq

/-- handleLoadOldMessages (src/unnamed/part_000 lines 224-247): set the
loading flag to true; if the container ref is null, return at once; otherwise
capture scrollHeight and scrollTop, invoke the host insertion, and in the next
animation frame write `scrollTop = capturedTop + (scrollHeightAfter -
capturedHeight)` and start a 500 ms timer clearing the loading flag.
`scrollHeightAfter` is the container scrollHeight observed inside the frame
callback, after the insertion took effect. -/
def handleLoadOldMessages (container : Option Geometry)
    (scrollHeightAfter : Int) : LoadOldOutcome :=
  match container with
  | none =>
      { isLoadingOldMessages := true
        writtenScrollTop := none
        settleTimerStarted := false }
  | some c =>
      { isLoadingOldMessages := true
        writtenScrollTop := some (c.scrollTop + (scrollHeightAfter - c.scrollHeight))
        settleTimerStarted := true }

end AutoScroll

namespace AutoScroll.VariantB

/-- Flag state of the variant B hook (src/useAutoScroll.ts): the four useState
booleans plus whether `scrollTimeoutRef` currently holds a pending timeout. -/
structure StateB where
  isAtBottom : Bool
  shouldAutoScroll : Bool
  isUserScrolling : Bool
  isLoadingOldMessages : Bool
  pendingTimeout : Bool
deriving Repr, DecidableEq, Fintype

/-- Offset arithmetic of variant B (src/useAutoScroll.ts line 90):
`atBottom = scrollHeight - clientHeight <= scrollTop + 1`. -/
def atBottomOf (g : Geometry) : Bool :=
  g.scrollHeight - g.clientHeight ≤ g.scrollTop + 1

/-- handleScroll of variant B (src/useAutoScroll.ts lines 79-110): first
cancel any pending timeout; return if the container ref is null; recompute
atBottom from the geometry and store it; when not at bottom and not streaming,
set isUserScrolling and clear shouldAutoScroll; when at bottom, set
shouldAutoScroll and start a 150 ms timeout that will clear isUserScrolling. -/
def handleScroll (s : StateB) (container : Option Geometry)
    (isStreaming : Bool) : StateB :=
  let s0 := { s with pendingTimeout := false }
  match container with
  | none => s0
  | some g =>
      let atBottom := atBottomOf g
      let s1 := { s0 with isAtBottom := atBottom }
      let s2 :=
        if !atBottom && !isStreaming then
          { s1 with isUserScrolling := true, shouldAutoScroll := false }
        else
          s1
      if atBottom then
        { s2 with shouldAutoScroll := true, pendingTimeout := true }
      else
        s2

/-- Firing of the 150 ms timeout scheduled by variant B handleScroll
(src/useAutoScroll.ts lines 104-108): the captured `atBottom` is true whenever
the timeout was scheduled, so the body clears isUserScrolling. A timeout that
was cancelled (no pending timeout) does nothing. -/
def timerFire (s : StateB) : StateB :=
  if s.pendingTimeout then
    { s with isUserScrolling := false, pendingTimeout := false }
  else
    s

/-- Fold of variant B handleScroll over a sequence of scroll events, each
carrying the container geometry and the isStreaming value at event time; no
timeout fires in between (every event arrives before the 150 ms timer of the
previous one elapses, so each clearTimeout cancels it). -/
def runScrolls (inputs : List (Option Geometry × Bool)) (s : StateB) : StateB :=
  inputs.foldl (fun t i => handleScroll t i.1 i.2) s

end AutoScroll.VariantB

namespace AutoScroll

/-- Helper: the affordance formula, for an arbitrary flag state. -/
theorem showScrollButton_iff (s : ScrollState) :
    showScrollButton s = true ↔
      (s.isAtBottom = false ∧ s.isLoadingOldMessages = false ∧
        s.isUserScrolling = true) := by
  revert s
  decide

/-- C1: at every point of every event sequence, the jump-to-bottom affordance
is visible iff At-Bottom is false, Loading-Older-Content is false and
User-Scrolling is true; in particular a visible affordance implies the view is
not at the bottom. -/
theorem affordance_invariant (events : List Event) :
    (showScrollButton (run events) = true ↔
      ((run events).isAtBottom = false ∧
        (run events).isLoadingOldMessages = false ∧
        (run events).isUserScrolling = true)) ∧
    (showScrollButton (run events) = true → (run events).isAtBottom = false) :=
  ⟨showScrollButton_iff (run events),
    fun h => ((showScrollButton_iff (run events)).1 h).1⟩

/-- Witness for C1: after a visibility report of false followed by a
non-streaming user scroll, the affordance is visible and the state is indeed
not at the bottom. -/
theorem affordance_invariant_witness :
    showScrollButton (run [Event.visibility false, Event.scroll false]) = true ∧
    (run [Event.visibility false, Event.scroll false]).isAtBottom = false :=
  ⟨by decide,
    (affordance_invariant [Event.visibility false, Event.scroll false]).2
      (by decide)⟩

/-- Counterexample for C2: a visibility-observer event delivered while the
programmatic flag is true still mutates the At-Bottom flag: starting from a
state with At-Bottom false and the flag set, the observer callback reporting
intersection flips At-Bottom to true. -/
theorem visibility_mutates_atBottom_inFlight :
    (observerCallback
        { isAtBottom := false, shouldAutoScroll := false,
          isUserScrolling := true, isLoadingOldMessages := false,
          isScrollingProgrammatically := true } true).isAtBottom = true ∧
    ({ isAtBottom := false, shouldAutoScroll := false,
        isUserScrolling := true, isLoadingOldMessages := false,
        isScrollingProgrammatically := true } : ScrollState).isAtBottom
      = false := by
  decide

/-- C2 (amended): while the Programmatic-Scroll-In-Flight flag is true, a
scroll event mutates none of the four flags; a visibility-observer event sets
At-Bottom to the reported value but mutates none of Auto-Follow,
User-Scrolling and Loading-Older-Content. -/
theorem suppressed_feedback (s : ScrollState) (isStreaming reported : Bool)
    (h : s.isScrollingProgrammatically = true) :
    handleScroll s isStreaming = s ∧
    (observerCallback s reported).isAtBottom = reported ∧
    (observerCallback s reported).shouldAutoScroll = s.shouldAutoScroll ∧
    (observerCallback s reported).isUserScrolling = s.isUserScrolling ∧
    (observerCallback s reported).isLoadingOldMessages
      = s.isLoadingOldMessages := by
  revert s isStreaming reported
  decide

/-- Witness for C2 (amended), at a state with the programmatic flag set. -/
theorem suppressed_feedback_witness :
    handleScroll
        { isAtBottom := false, shouldAutoScroll := true,
          isUserScrolling := false, isLoadingOldMessages := false,
          isScrollingProgrammatically := true } false
      = { isAtBottom := false, shouldAutoScroll := true,
          isUserScrolling := false, isLoadingOldMessages := false,
          isScrollingProgrammatically := true } ∧
    (observerCallback
        { isAtBottom := false, shouldAutoScroll := true,
          isUserScrolling := false, isLoadingOldMessages := false,
          isScrollingProgrammatically := true } true).isAtBottom = true ∧
    (observerCallback
        { isAtBottom := false, shouldAutoScroll := true,
          isUserScrolling := false, isLoadingOldMessages := false,
          isScrollingProgrammatically := true } true).shouldAutoScroll = true ∧
    (observerCallback
        { isAtBottom := false, shouldAutoScroll := true,
          isUserScrolling := false, isLoadingOldMessages := false,
          isScrollingProgrammatically := true } true).isUserScrolling = false ∧
    (observerCallback
        { isAtBottom := false, shouldAutoScroll := true,
          isUserScrolling := false, isLoadingOldMessages := false,
          isScrollingProgrammatically := true } true).isLoadingOldMessages
      = false :=
  suppressed_feedback
    { isAtBottom := false, shouldAutoScroll := true,
      isUserScrolling := false, isLoadingOldMessages := false,
      isScrollingProgrammatically := true } false true rfl

/-- C3: on a content change, a scroll-to-bottom is scheduled for the next
animation frame iff Auto-Follow and At-Bottom both hold at that moment, and
the scheduled scroll is non-smooth exactly when streaming is active. -/
theorem contentChange_schedule_spec (s : ScrollState) (isStreaming : Bool) :
    ((contentChangedSchedule s isStreaming).isSome ↔
      (s.shouldAutoScroll = true ∧ s.isAtBottom = true)) ∧
    (s.shouldAutoScroll = true → s.isAtBottom = true →
      contentChangedSchedule s isStreaming = some (!isStreaming)) := by
  revert s isStreaming
  decide

/-- Witness for C3: in the initial state, during streaming, a non-smooth
scroll is scheduled. -/
theorem contentChange_schedule_spec_witness :
    initState.shouldAutoScroll = true ∧ initState.isAtBottom = true ∧
    contentChangedSchedule initState true = some false :=
  ⟨rfl, rfl, (contentChange_schedule_spec initState true).2 rfl rfl⟩

/-- C4: a visibility report of at-bottom = true arriving after a previous
report of false sets Auto-Follow and clears User-Scrolling when the
programmatic flag is clear, and leaves both unchanged when the flag is set. -/
theorem visibility_arrival_spec (s : ScrollState) (h : s.isAtBottom = false) :
    (s.isScrollingProgrammatically = false →
      (observerCallback s true).shouldAutoScroll = true ∧
      (observerCallback s true).isUserScrolling = false) ∧
    (s.isScrollingProgrammatically = true →
      (observerCallback s true).shouldAutoScroll = s.shouldAutoScroll ∧
      (observerCallback s true).isUserScrolling = s.isUserScrolling) := by
  revert s
  decide

/-- Witness for C4, at a state away from the bottom with the programmatic
flag clear: the user-caused arrival re-enables auto-follow. -/
theorem visibility_arrival_spec_witness :
    (observerCallback
        { isAtBottom := false, shouldAutoScroll := false,
          isUserScrolling := true, isLoadingOldMessages := false,
          isScrollingProgrammatically := false } true).shouldAutoScroll
      = true ∧
    (observerCallback
        { isAtBottom := false, shouldAutoScroll := false,
          isUserScrolling := true, isLoadingOldMessages := false,
          isScrollingProgrammatically := false } true).isUserScrolling
      = false :=
  (visibility_arrival_spec
    { isAtBottom := false, shouldAutoScroll := false,
      isUserScrolling := true, isLoadingOldMessages := false,
      isScrollingProgrammatically := false } rfl).1 rfl

/-- C5: a raw scroll event handled while the programmatic flag is clear and
the view is not at the bottom marks the user as scrolling and disables
auto-follow when streaming is off, and changes neither flag when streaming is
active. -/
theorem scroll_event_user_detection (s : ScrollState) (isStreaming : Bool)
    (hprog : s.isScrollingProgrammatically = false)
    (hbot : s.isAtBottom = false) :
    (isStreaming = false →
      (handleScroll s isStreaming).isUserScrolling = true ∧
      (handleScroll s isStreaming).shouldAutoScroll = false) ∧
    (isStreaming = true →
      (handleScroll s isStreaming).isUserScrolling = s.isUserScrolling ∧
      (handleScroll s isStreaming).shouldAutoScroll = s.shouldAutoScroll) := by
  revert s isStreaming
  decide

/-- Witness for C5, at a non-streaming scroll event away from the bottom. -/
theorem scroll_event_user_detection_witness :
    (handleScroll
        { isAtBottom := false, shouldAutoScroll := true,
          isUserScrolling := false, isLoadingOldMessages := false,
          isScrollingProgrammatically := false } false).isUserScrolling
      = true ∧
    (handleScroll
        { isAtBottom := false, shouldAutoScroll := true,
          isUserScrolling := false, isLoadingOldMessages := false,
          isScrollingProgrammatically := false } false).shouldAutoScroll
      = false :=
  (scroll_event_user_detection
    { isAtBottom := false, shouldAutoScroll := true,
      isUserScrolling := false, isLoadingOldMessages := false,
      isScrollingProgrammatically := false } false rfl rfl).1 rfl

end AutoScroll

namespace AutoScroll

/-- C6: jump-to-bottom sets Auto-Follow, clears User-Scrolling, and emits a
smooth scroll regardless of the current state (in particular of At-Bottom);
invoking it a second time on the resulting state, before the programmatic
flag has been cleared, leaves Auto-Follow = true and User-Scrolling = false. -/
theorem jump_to_bottom_spec (s : ScrollState) (anchorPresent : Bool) :
    ((handleScrollToBottom s anchorPresent).1.shouldAutoScroll = true ∧
      (handleScrollToBottom s anchorPresent).1.isUserScrolling = false) ∧
    (anchorPresent = true →
      (handleScrollToBottom s anchorPresent).2 =
        [Effect.setProgrammaticFlag true,
         Effect.scrollAnchorIntoView true,
         Effect.startClearFlagTimer 500]) ∧
    ((handleScrollToBottom (handleScrollToBottom s anchorPresent).1
        anchorPresent).1.shouldAutoScroll = true ∧
      (handleScrollToBottom (handleScrollToBottom s anchorPresent).1
        anchorPresent).1.isUserScrolling = false) := by
  revert s anchorPresent
  decide

/-- Witness for C6: jump-to-bottom from the initial state with the anchor
mounted emits exactly a flag set, a smooth scroll and a 500 ms clear timer. -/
theorem jump_to_bottom_spec_witness :
    (handleScrollToBottom initState true).2 =
      [Effect.setProgrammaticFlag true,
       Effect.scrollAnchorIntoView true,
       Effect.startClearFlagTimer 500] :=
  (jump_to_bottom_spec initState true).2.1 rfl

/-- C7: the compensation step of the prepend flow writes
`old offset + (new total extent - old total extent)` as the new scroll
offset; at old extent 2000, old offset 500 and new extent 2800 it writes
1300. -/
theorem offset_preservation (c : Geometry) (scrollHeightAfter : Int) :
    (handleLoadOldMessages (some c) scrollHeightAfter).writtenScrollTop =
      some (c.scrollTop + (scrollHeightAfter - c.scrollHeight)) ∧
    (handleLoadOldMessages
        (some { scrollTop := 500, scrollHeight := 2000, clientHeight := 400 })
        2800).writtenScrollTop = some 1300 :=
  ⟨rfl, by decide⟩

/-- C8 (code bug): when the container ref is null at invocation time,
handleLoadOldMessages sets the loading flag to true and returns before the
animation-frame callback — and hence the 500 ms settle timer — is ever
scheduled, so the flag is never reset and the affordance stays suppressed. -/
theorem load_old_null_container_locks_flag :
    (handleLoadOldMessages none 0).isLoadingOldMessages = true ∧
    (handleLoadOldMessages none 0).settleTimerStarted = false := by
  decide

/-- C9: a scrollToBottom call with the anchor mounted sets the programmatic
flag before the scroll-into-view effect and starts the clearing timer with a
500 ms delay when smooth and a 0 ms delay otherwise, and the timer body
clears the flag; with the anchor absent the call is a no-op. -/
theorem scrollToBottom_flag_protocol (s : ScrollState)
    (anchorPresent smooth : Bool) :
    (anchorPresent = true →
      (scrollToBottom s anchorPresent smooth).1.isScrollingProgrammatically
        = true ∧
      (scrollToBottom s anchorPresent smooth).2 =
        [Effect.setProgrammaticFlag true,
         Effect.scrollAnchorIntoView smooth,
         Effect.startClearFlagTimer (if smooth then 500 else 0)] ∧
      (clearProgrammaticFlag
        (scrollToBottom s anchorPresent smooth).1).isScrollingProgrammatically
        = false) ∧
    (anchorPresent = false →
      scrollToBottom s anchorPresent smooth = (s, [])) := by
  revert s anchorPresent smooth
  decide

/-- Witness for C9: a smooth call from the initial state with the anchor
mounted. -/
theorem scrollToBottom_flag_protocol_witness :
    (scrollToBottom initState true true).1.isScrollingProgrammatically
      = true ∧
    (scrollToBottom initState true true).2 =
      [Effect.setProgrammaticFlag true,
       Effect.scrollAnchorIntoView true,
       Effect.startClearFlagTimer (if true then 500 else 0)] ∧
    (clearProgrammaticFlag
      (scrollToBottom initState true true).1).isScrollingProgrammatically
      = false :=
  (scrollToBottom_flag_protocol initState true true).1 rfl

end AutoScroll

namespace AutoScroll.VariantB

/-- Helper: variant B handleScroll never clears isUserScrolling; only the
150 ms timeout body does. -/
theorem handleScroll_preserves_userScrolling (s : StateB)
    (c : Option Geometry) (st : Bool) (h : s.isUserScrolling = true) :
    (handleScroll s c st).isUserScrolling = true := by
  cases c with
  | none => simpa [handleScroll] using h
  | some g =>
      simp only [handleScroll]
      cases hb : atBottomOf g <;> cases st <;> simp [hb, h]

/-- C10: in the offset-arithmetic variant, a scroll event finding the view at
the bottom re-enables Auto-Follow at once, leaves User-Scrolling unchanged
and schedules the 150 ms timeout; handleScroll first cancels any pending
timeout (its result is independent of it); the timeout body is what clears
User-Scrolling; hence over any sequence of scroll events with no timeout
firing in between, User-Scrolling once true stays true. -/
theorem rapid_scrolls_keep_userScrolling :
    (∀ (s : StateB) (g : Geometry) (st : Bool),
      atBottomOf g = true →
        (handleScroll s (some g) st).shouldAutoScroll = true ∧
        (handleScroll s (some g) st).isUserScrolling = s.isUserScrolling ∧
        (handleScroll s (some g) st).pendingTimeout = true) ∧
    (∀ (s : StateB) (b : Bool) (c : Option Geometry) (st : Bool),
      handleScroll { s with pendingTimeout := b } c st
        = handleScroll s c st) ∧
    (∀ s : StateB, s.pendingTimeout = true →
      (timerFire s).isUserScrolling = false) ∧
    (∀ (inputs : List (Option Geometry × Bool)) (s : StateB),
      s.isUserScrolling = true →
        (runScrolls inputs s).isUserScrolling = true) := by
  refine ⟨?_, ?_, ?_, ?_⟩
  · intro s g st h
    simp [handleScroll, h]
  · intro s b c st
    cases c <;> rfl
  · intro s h
    simp [timerFire, h]
  · intro inputs
    induction inputs with
    | nil => intro s h; simpa [runScrolls] using h
    | cons i rest ih =>
        intro s h
        have h1 := handleScroll_preserves_userScrolling s i.1 i.2 h
        simpa [runScrolls, List.foldl] using ih _ h1

/-- Witness for C10: two quick scroll events, the second finding the view at
the bottom (extent 2000, client 400, offset 1599), leave User-Scrolling
true. -/
theorem rapid_scrolls_keep_userScrolling_witness :
    (runScrolls
        [(some { scrollTop := 100, scrollHeight := 2000, clientHeight := 400 },
          false),
         (some { scrollTop := 1599, scrollHeight := 2000, clientHeight := 400 },
          false)]
        { isAtBottom := false, shouldAutoScroll := false,
          isUserScrolling := true, isLoadingOldMessages := false,
          pendingTimeout := true }).isUserScrolling = true :=
  rapid_scrolls_keep_userScrolling.2.2.2
    [(some { scrollTop := 100, scrollHeight := 2000, clientHeight := 400 },
      false),
     (some { scrollTop := 1599, scrollHeight := 2000, clientHeight := 400 },
      false)]
    { isAtBottom := false, shouldAutoScroll := false,
      isUserScrolling := true, isLoadingOldMessages := false,
      pendingTimeout := true } rfl

end AutoScroll.VariantB
